import Mathlib

/-!
Verification of the Prefect agent core and the shell task utility.

The shell task definitions are a shallow embedding of
`src/prefect/tasks/core/shell.py`.  The agent definitions are modelled
from the specification (sections 3 to 4.7), since only the agent's test
suite ships in this tree; each such definition carries a doc comment
saying so.
-/

namespace PrefectSpec

/-- State kinds carried by flow and task runs (spec section 3). -/
inductive StateKind where
  | Scheduled : StateKind
  | Submitted : StateKind
  | Running : StateKind
  | Success : StateKind
  | Failed : String → StateKind
  deriving DecidableEq, Repr

/-- A task run: identifier, serialized state and version (spec section 3). -/
structure TaskRun where
  id : String
  version : Nat
  serialized_state : StateKind
  deriving DecidableEq, Repr

/-- A flow run: identifier, serialized state, version and nested task runs
(spec section 3). -/
structure FlowRun where
  id : String
  version : Nat
  serialized_state : StateKind
  task_runs : List TaskRun
  deriving DecidableEq, Repr

/-- One entry of a `writeRunLogs` call (spec section 6). -/
structure LogEntry where
  flowRunId : String
  level : String
  message : String
  name : String
  deriving DecidableEq, Repr

/-- One state mutation sent to the control plane: the run identifier, its
last observed version and the new state (spec section 4.5). -/
structure Mutation where
  runId : String
  version : Nat
  newState : StateKind
  deriving DecidableEq, Repr

/-- Record of the calls made to the Executor: the flow run ids passed to
`submit` and the flow run ids whose futures got a done callback. -/
structure ExecutorTrace where
  submitted : List String
  callbacks : List String
  deriving DecidableEq, Repr

/-- Errors of the agent startup paths (spec section 7). -/
inductive AgentError where
  | authorizationError : AgentError
  | connectionError : AgentError
  deriving DecidableEq, Repr

/-- `msg` contains `s` as a substring. -/
def containsStr (msg s : String) : Prop :=
  ∃ a b : String, msg = a ++ s ++ b

/-! ## Shell task (embedded from src/prefect/tasks/core/shell.py) -/

/-- A `ShellTask`: the configured command and the stored environment
override.  The environment is a list of variable bindings. -/
structure ShellTask where
  command : String
  env : List (String × String)
  deriving DecidableEq, Repr

/-- `ShellTask.__init__`: `self.env = env or dict()` — a `None` (or empty)
`env` argument is stored as the empty dict. -/
def ShellTask.init (command : String) (env : Option (List (String × String))) :
    ShellTask :=
  { command := command, env := env.getD [] }

/-- The line `current_env = self.env or os.environ.copy()` of
`ShellTask.run`: a falsy stored env falls back to the full process
environment. -/
def ShellTask.currentEnv (t : ShellTask) (osEnviron : List (String × String)) :
    List (String × String) :=
  if t.env.isEmpty then osEnviron else t.env

/-- `ShellTask.run`: runs the command through `subprocess.check_output`
with `currentEnv`; a non-zero exit code raises
`prefect.engine.signals.FAIL` with the formatted message, a zero exit
code returns the captured output.  `exec` stands for the subprocess call
and maps the command and the environment to the exit code and the
captured output. -/
def ShellTask.run (t : ShellTask) (osEnviron : List (String × String))
    (exec : String → List (String × String) → Int × String) :
    Except String String :=
  let current_env := t.currentEnv osEnviron
  let r := exec t.command current_env
  if r.1 = 0 then
    .ok r.2
  else
    .error ("Command failed with exit code " ++ toString r.1 ++ ": " ++ r.2)

/-! ## Agent core (modelled from the spec; the agent implementation file
is not in this tree, only its test suite is) -/

/-- Modelled from the spec: section 4.7 logger setup of the missing agent
implementation.  The handler list of the process-wide logger for one
agent name, after `n` constructions of agents with that name:
construction attaches a stream handler only when the logger has none. -/
def agent_logger_handlers : Nat → List String
  | 0 => []
  | n + 1 =>
    let h := agent_logger_handlers n
    if h.isEmpty then ["stream"] else h

/-- Modelled from the spec: section 4.1 `resolveTenantByQuery`
(`query_tenant_id`) of the missing agent implementation.  It fails with
`AuthorizationError` when no auth token is configured or when the token
scope is not the agent/runner scope, and otherwise returns the first
tenant identifier of the query result, if any. -/
def query_tenant_id (authToken : Option String) (tokenScope : String)
    (tenants : List String) : Except AgentError (Option String) :=
  match authToken with
  | none => .error .authorizationError
  | some _ =>
    if tokenScope = "RUNNER" then .ok tenants.head?
    else .error .authorizationError

/-- Modelled from the spec: section 4.1 `resolveTenantByHandshake`
(`agent_connect`) of the missing agent implementation.  It returns the
tenant identifier resolved by the handshake and fails with
`ConnectionError` when the response carries none (null). -/
def agent_connect (resolvedTenantId : Option String) :
    Except AgentError String :=
  match resolvedTenantId with
  | some tid => .ok tid
  | none => .error .connectionError

/-- Modelled from the spec: section 4.2 `queryFlowRuns` of the missing
agent implementation.  `firstQuery` is the outcome of the queued-run-id
query, `submitting` the current contents of SubmittingSet, `fetch` the
second query fetching full flow run objects for a list of ids.  Ids
already submitting are filtered out before the second query; an empty
filtered list short-circuits without a second query.  The result pairs
the id filter given to the second query (none when it was skipped) with
the fetched flow runs; a failure of either query propagates. -/
def query_flow_runs (firstQuery : Except String (List String))
    (submitting : List String)
    (fetch : List String → Except String (List FlowRun)) :
    Except String (Option (List String) × List FlowRun) :=
  match firstQuery with
  | .error e => .error e
  | .ok queuedIds =>
    let filtered := queuedIds.filter (fun i => !submitting.contains i)
    if filtered = [] then .ok (none, [])
    else
      match fetch filtered with
      | .error e => .error e
      | .ok runs => .ok (some filtered, runs)

/-- Modelled from the spec: section 4.3 step 2 of the missing agent
implementation.  For each discovered flow run, its id is put into
SubmittingSet, the deploy-and-report work is submitted to the Executor
and a done callback is registered on the returned future.  Returns the
truthiness of the run list, the Executor trace and the new
SubmittingSet. -/
def dispatch_runs (runs : List FlowRun) (submitting : List String) :
    Bool × ExecutorTrace × List String :=
  let ids := runs.map (fun fr => fr.id)
  (!runs.isEmpty, { submitted := ids, callbacks := ids }, submitting ++ ids)

/-- Modelled from the spec: section 4.3 `agentProcess` of the missing
agent implementation.  Discovery runs first; a discovery failure
propagates uncaught, otherwise the discovered runs are dispatched. -/
def agent_process (firstQuery : Except String (List String))
    (submitting : List String)
    (fetch : List String → Except String (List FlowRun)) :
    Except String (Bool × ExecutorTrace × List String) :=
  match query_flow_runs firstQuery submitting fetch with
  | .error e => .error e
  | .ok r => .ok (dispatch_runs r.2 submitting)

/-- Modelled from the spec: the dispatch-completion callback
`on_flow_run_deploy_attempt` of the missing agent implementation
(spec sections 3 and 4.3).  Whatever the outcome of the dispatched work,
it removes the flow run id from SubmittingSet. -/
def on_flow_run_deploy_attempt (_outcome : Except String Unit)
    (submitting : List String) (flowRunId : String) : List String :=
  submitting.filter (fun i => i ≠ flowRunId)

/-- Modelled from the spec: section 4.5 `updateState` of the missing
agent implementation.  One mutation per flow run and one per task run,
each with the entity's last known version, toward a Submitted state. -/
def update_state (fr : FlowRun) : List Mutation :=
  { runId := fr.id, version := fr.version, newState := .Submitted } ::
    fr.task_runs.map
      (fun tr => { runId := tr.id, version := tr.version, newState := .Submitted })

/-- Modelled from the spec: section 4.5 `markFailed` of the missing agent
implementation.  One mutation per flow run and one per task run, each
toward a Failed state carrying the triggering message. -/
def mark_failed (fr : FlowRun) (msg : String) : List Mutation :=
  { runId := fr.id, version := fr.version, newState := .Failed msg } ::
    fr.task_runs.map
      (fun tr => { runId := tr.id, version := tr.version, newState := .Failed msg })

/-- Modelled from the spec: section 4.4 `deployAndUpdateFlowRun` of the
missing agent implementation.  `deploy` is the outcome of the
DeploymentBackend's `deployFlow` call and `writeOutcome` the outcome of
the control-plane `writeRunLogs` call.  On deploy success, `updateState`
runs; on a deploy exception, a single `writeRunLogs` call with level
ERROR, the exception message, the flow run id and the agent name is
made, then `markFailed` runs; a failing `writeRunLogs` is caught and
logged locally.  The result pairs the list of `writeRunLogs` calls made
(each a list of entries) with the state mutations issued; no exception
ever propagates, so the result is always `ok`. -/
def deploy_and_update_flow_run (deploy : Except String Unit)
    (writeOutcome : Except String Unit) (fr : FlowRun) (agentName : String) :
    Except String (List (List LogEntry) × List Mutation) :=
  match deploy with
  | .ok _ => .ok ([], update_state fr)
  | .error msg =>
    let calls := [[{ flowRunId := fr.id, level := "ERROR", message := msg,
                     name := agentName : LogEntry }]]
    match writeOutcome with
    | .ok _ => .ok (calls, mark_failed fr msg)
    | .error _ => .ok (calls, mark_failed fr msg)

/-- A sample task run used by witnesses. -/
def sampleTaskRun : TaskRun :=
  { id := "id", version := 1, serialized_state := .Scheduled }

/-- A sample flow run used by witnesses. -/
def sampleFlowRun : FlowRun :=
  { id := "id", version := 1, serialized_state := .Scheduled,
    task_runs := [sampleTaskRun] }

/-! ## Helper lemmas -/

/-- The logger for a name holds exactly the one stream handler after any
positive number of constructions. -/
theorem agent_logger_handlers_succ (n : Nat) :
    agent_logger_handlers (n + 1) = ["stream"] := by
  induction n with
  | zero => rfl
  | succ k ih =>
    have hstep : agent_logger_handlers (k + 1 + 1) =
        if (agent_logger_handlers (k + 1)).isEmpty then ["stream"]
        else agent_logger_handlers (k + 1) := rfl
    rw [hstep, ih]
    rfl

/-- Every successful `agent_process` result is the dispatch of some run
list over the initial SubmittingSet. -/
theorem agent_process_ok_shape (firstQuery : Except String (List String))
    (submitting : List String)
    (fetch : List String → Except String (List FlowRun))
    (r : Bool × ExecutorTrace × List String)
    (h : agent_process firstQuery submitting fetch = .ok r) :
    ∃ runs : List FlowRun, r = dispatch_runs runs submitting := by
  cases firstQuery with
  | error e => simp [agent_process, query_flow_runs] at h
  | ok queued =>
    simp only [agent_process, query_flow_runs] at h
    by_cases he : queued.filter (fun i => !submitting.contains i) = []
    · rw [if_pos he] at h
      simp only [Except.ok.injEq] at h
      exact ⟨[], h.symm⟩
    · rw [if_neg he] at h
      cases hf : fetch (queued.filter (fun i => !submitting.contains i)) with
      | error e => rw [hf] at h; simp at h
      | ok runs =>
        rw [hf] at h
        simp only [Except.ok.injEq] at h
        exact ⟨runs, h.symm⟩

/-- String append is associative. -/
theorem str_append_assoc (a b c : String) : a ++ b ++ c = a ++ (b ++ c) := by
  cases a with | mk la =>
  cases b with | mk lb =>
  cases c with | mk lc =>
  show String.mk (la ++ lb ++ lc) = String.mk (la ++ (lb ++ lc))
  exact congrArg String.mk (List.append_assoc la lb lc)

/-- The empty string is right neutral for append. -/
theorem str_append_empty (s : String) : s ++ "" = s := by
  cases s with | mk l =>
  show String.mk (l ++ []) = String.mk l
  exact congrArg String.mk (List.append_nil l)

/-! ## Claim theorems -/

/-- C1: when `deployFlow` fails with message "Error Here" inside
`deployAndUpdateFlowRun`, exactly one `writeRunLogs` call is made,
carrying exactly the level ERROR, the message "Error Here", the flow
run's id and the agent's name, the failed-state mutations are issued,
and no exception propagates to the caller (the result is `ok`), whatever
the outcome of the `writeRunLogs` call itself. -/
theorem deploy_error_logged_once (fr : FlowRun) (agentName : String)
    (writeOutcome : Except String Unit) :
    deploy_and_update_flow_run (.error "Error Here") writeOutcome fr agentName =
      .ok ([[{ flowRunId := fr.id, level := "ERROR", message := "Error Here",
               name := agentName }]],
           mark_failed fr "Error Here") := by
  cases writeOutcome <;> rfl

/-- C5: `query_tenant_id` fails with `AuthorizationError` when no auth
token is configured (for every scope) and when the configured token has
the user scope "USER" rather than the runner scope, however valid the
token itself is. -/
theorem query_tenant_id_rejects_bad_auth (token sc : String)
    (tenants : List String) :
    query_tenant_id none sc tenants = .error .authorizationError ∧
    query_tenant_id (some token) "USER" tenants =
      .error .authorizationError := by
  refine ⟨rfl, ?_⟩
  simp [query_tenant_id]

/-- C6: `agent_connect` returns the tenant identifier the handshake
resolved when there is one, and fails with `ConnectionError` when the
resolved identifier is null/absent. -/
theorem agent_connect_requires_tenant (tid : String) :
    agent_connect (some tid) = .ok tid ∧
    agent_connect none = .error .connectionError :=
  ⟨rfl, rfl⟩

/-- C8: for every N ≥ 1, after constructing N agents with the same name
the process-wide logger keyed by that name has exactly one output
handler. -/
theorem agent_logger_single_handler (n : Nat) (h : 1 ≤ n) :
    (agent_logger_handlers n).length = 1 := by
  cases n with
  | zero => exact absurd h (by decide)
  | succ k => rw [agent_logger_handlers_succ]; rfl

/-- Witness for C8 at N = 3. -/
theorem agent_logger_single_handler_witness :
    1 ≤ 3 ∧ (agent_logger_handlers 3).length = 1 :=
  ⟨by decide, agent_logger_single_handler 3 (by decide)⟩

/-- C10: a `ShellTask` built with a `None` or empty env stores the empty
dict, and its `run` hands the subprocess the full process environment
`osEnviron` rather than an empty one: every observation `f` of the
environment the subprocess receives sees exactly `osEnviron`. -/
theorem shell_falsy_env_uses_os_environ (command : String)
    (osEnviron : List (String × String)) :
    (ShellTask.init command none).env = [] ∧
    (ShellTask.init command (some [])).env = [] ∧
    (ShellTask.init command none).currentEnv osEnviron = osEnviron ∧
    (ShellTask.init command (some [])).currentEnv osEnviron = osEnviron ∧
    (∀ f : List (String × String) → String,
      (ShellTask.init command none).run osEnviron (fun _ e => (0, f e)) =
        .ok (f osEnviron) ∧
      (ShellTask.init command (some [])).run osEnviron (fun _ e => (0, f e)) =
        .ok (f osEnviron)) := by
  refine ⟨rfl, rfl, rfl, rfl, fun f => ⟨?_, ?_⟩⟩ <;>
    simp [ShellTask.run, ShellTask.currentEnv, ShellTask.init]

/-- C2: every flow run id inserted into SubmittingSet at dispatch time by
`agent_process` is in the resulting SubmittingSet, and after the
dispatch-completion callback fires it is absent from the set, whatever
the outcome of the dispatched work was. -/
theorem dispatched_id_removed (firstQuery : Except String (List String))
    (submitting : List String)
    (fetch : List String → Except String (List FlowRun))
    (b : Bool) (tr : ExecutorTrace) (s2 : List String)
    (outcome : Except String Unit) (i : String)
    (hok : agent_process firstQuery submitting fetch = .ok (b, tr, s2))
    (hmem : i ∈ tr.submitted) :
    i ∈ s2 ∧ i ∉ on_flow_run_deploy_attempt outcome s2 i := by
  obtain ⟨runs, hr⟩ := agent_process_ok_shape firstQuery submitting fetch _ hok
  simp only [dispatch_runs, Prod.mk.injEq] at hr
  obtain ⟨hb, htr, hs⟩ := hr
  constructor
  · rw [hs]
    apply List.mem_append_right
    rw [htr] at hmem
    exact hmem
  · simp [on_flow_run_deploy_attempt]

/-- Witness for C2 with one dispatched flow run. -/
theorem dispatched_id_removed_witness :
    "id" ∈ (["id"] : List String) ∧
    "id" ∉ on_flow_run_deploy_attempt (.ok ()) ["id"] "id" :=
  dispatched_id_removed (.ok ["id"]) [] (fun _ => .ok [sampleFlowRun]) true
    ⟨["id"], ["id"]⟩ ["id"] (.ok ()) "id" rfl (by simp)

/-- C3: the second discovery query of `query_flow_runs` is filtered: when
it is issued, its id list is exactly the queued id list with every id
currently in SubmittingSet removed, so no submitting id appears in it;
in particular with the queued ids [id1, id2] and id2 already in
SubmittingSet, the second query references only [id1]. -/
theorem query_excludes_submitting (queued submitting : List String)
    (fetch : List String → Except String (List FlowRun)) :
    (∀ sec runs,
      query_flow_runs (.ok queued) submitting fetch = .ok (sec, runs) →
      ∀ l, sec = some l →
        l = queued.filter (fun i => !submitting.contains i) ∧
        ∀ i ∈ submitting, i ∉ l) ∧
    (∀ runs2, fetch ["id1"] = .ok runs2 →
      query_flow_runs (.ok ["id1", "id2"]) ["id2"] fetch =
        .ok (some ["id1"], runs2)) := by
  constructor
  · intro sec runs hok l hsec
    subst hsec
    simp only [query_flow_runs] at hok
    by_cases he : queued.filter (fun i => !submitting.contains i) = []
    · rw [if_pos he] at hok
      simp at hok
    · rw [if_neg he] at hok
      cases hf : fetch (queued.filter (fun i => !submitting.contains i)) with
      | error e => rw [hf] at hok; simp at hok
      | ok rs =>
        rw [hf] at hok
        simp only [Except.ok.injEq, Prod.mk.injEq, Option.some.injEq] at hok
        refine ⟨hok.1.symm, ?_⟩
        intro i hi
        rw [← hok.1]
        simp [List.mem_filter]
        intro _
        simpa using hi
  · intro runs2 hf
    have hfil : (List.filter (fun i => !(List.contains ["id2"] i))
        ["id1", "id2"]) = ["id1"] := rfl
    simp only [query_flow_runs, hfil, hf]
    simp

/-- Witness for C3 on the queued list [id1, id2] with id2 submitting. -/
theorem query_excludes_submitting_witness :
    query_flow_runs (.ok ["id1", "id2"]) ["id2"] (fun _ => .ok []) =
      .ok (some ["id1"], []) :=
  (query_excludes_submitting ["id1", "id2"] ["id2"] (fun _ => .ok [])).2 [] rfl

/-- C4: when the queued-id filter passes at least one id and the
full-object fetch answers, `agent_process` returns a truthy result iff
at least one unit of work was submitted to the Executor; an empty fetch
result yields a falsy result with the Executor never called, and every
fetched flow run is submitted to the Executor with a done callback
registered on its future. -/
theorem agent_process_submit_iff (queued submitting : List String)
    (fetch : List String → Except String (List FlowRun)) (runs : List FlowRun)
    (hf : fetch (queued.filter (fun i => !submitting.contains i)) = .ok runs)
    (hne : queued.filter (fun i => !submitting.contains i) ≠ []) :
    ∃ b tr s2,
      agent_process (.ok queued) submitting fetch = .ok (b, tr, s2) ∧
      (b = true ↔ tr.submitted ≠ []) ∧
      (runs = [] → b = false ∧ tr.submitted = [] ∧ tr.callbacks = []) ∧
      (∀ fr ∈ runs, fr.id ∈ tr.submitted ∧ fr.id ∈ tr.callbacks) := by
  refine ⟨!runs.isEmpty,
    ⟨runs.map (fun fr => fr.id), runs.map (fun fr => fr.id)⟩,
    submitting ++ runs.map (fun fr => fr.id), ?_, ?_, ?_, ?_⟩
  · simp only [agent_process, query_flow_runs]
    rw [if_neg hne, hf]
    simp [dispatch_runs]
  · simp [List.isEmpty_iff, List.map_eq_nil_iff]
  · intro h
    subst h
    simp
  · intro fr hfr
    exact ⟨List.mem_map_of_mem _ hfr, List.mem_map_of_mem _ hfr⟩

/-- Witness for C4 with one queued id and one fetched flow run. -/
theorem agent_process_submit_iff_witness :
    ∃ b tr s2,
      agent_process (.ok ["id"]) [] (fun _ => .ok [sampleFlowRun]) =
        .ok (b, tr, s2) ∧
      (b = true ↔ tr.submitted ≠ []) ∧
      ([sampleFlowRun] = ([] : List FlowRun) →
        b = false ∧ tr.submitted = [] ∧ tr.callbacks = []) ∧
      (∀ fr ∈ [sampleFlowRun], fr.id ∈ tr.submitted ∧ fr.id ∈ tr.callbacks) :=
  agent_process_submit_iff ["id"] [] (fun _ => .ok [sampleFlowRun])
    [sampleFlowRun] rfl (by decide)

/-- C7: an exception raised by either discovery query inside
`agent_process` propagates to its caller unmodified: both a failing
queued-id query and a failing full-object fetch surface as the same
error in the result. -/
theorem discovery_failure_propagates (e : String) (submitting : List String)
    (fetch : List String → Except String (List FlowRun)) :
    agent_process (.error e) submitting fetch = .error e ∧
    (∀ queued,
      queued.filter (fun i => !submitting.contains i) ≠ [] →
      fetch (queued.filter (fun i => !submitting.contains i)) = .error e →
      agent_process (.ok queued) submitting fetch = .error e) := by
  refine ⟨rfl, ?_⟩
  intro queued hne hfe
  simp only [agent_process, query_flow_runs]
  rw [if_neg hne, hfe]

/-- Witness for C7: both discovery failure modes at concrete inputs. -/
theorem discovery_failure_propagates_witness :
    agent_process (.error "Error") [] (fun _ => .ok []) = .error "Error" ∧
    agent_process (.ok ["id"]) [] (fun _ => .error "Error") = .error "Error" :=
  ⟨(discovery_failure_propagates "Error" [] (fun _ => .ok [])).1,
   (discovery_failure_propagates "Error" [] (fun _ => .error "Error")).2
     ["id"] (by decide) rfl⟩

/-- C9: `ShellTask.run` hands the command to the subprocess and, when the
exit code is non-zero, fails with the FAIL signal whose message contains
both the exit code and the captured output; when the exit code is zero
it returns the captured output without raising. -/
theorem shell_run_fail_on_nonzero (t : ShellTask)
    (osEnviron : List (String × String))
    (exec : String → List (String × String) → Int × String)
    (code : Int) (out : String)
    (hexec : exec t.command (t.currentEnv osEnviron) = (code, out)) :
    (code ≠ 0 → ∃ msg, t.run osEnviron exec = .error msg ∧
      containsStr msg (toString code) ∧ containsStr msg out) ∧
    (code = 0 → t.run osEnviron exec = .ok out) := by
  constructor
  · intro hc
    refine ⟨"Command failed with exit code " ++ toString code ++ ": " ++ out,
      ?_, ?_, ?_⟩
    · simp [ShellTask.run, hexec, hc]
    · exact ⟨"Command failed with exit code ", ": " ++ out,
        (str_append_assoc _ _ _).symm ▸ str_append_assoc _ _ _⟩
    · refine ⟨"Command failed with exit code " ++ toString code ++ ": ", "",
        (str_append_empty _).symm⟩
  · intro hc
    simp [ShellTask.run, hexec, hc]

/-- Witness for C9 at exit code 1 with output "boom". -/
theorem shell_run_fail_on_nonzero_witness :
    ∃ msg,
      (ShellTask.init "false" none).run [("K", "V")]
        (fun _ _ => ((1 : Int), "boom")) = .error msg ∧
      containsStr msg (toString (1 : Int)) ∧ containsStr msg "boom" :=
  (shell_run_fail_on_nonzero (ShellTask.init "false" none) [("K", "V")]
    (fun _ _ => (1, "boom")) 1 "boom" rfl).1 (by decide)

end PrefectSpec
